import Mathlib

/-!
Verification of the help-desk ticket lifecycle core.

Shallow embedding of the repository's ticket lifecycle code:
`tickets/models.py`, `tickets/views.py`, `tickets/serializers.py`,
`accounts/permissions.py`, `accounts/notifications.py`.

Timestamps are modelled as `Nat`, ids as `String` (the views compare ids
with `str(...) == str(...)`).  Django's `save()` on a `Ticket` always
refreshes `updated_at` (the field is declared `auto_now=True`), so every
modelled operation that saves the ticket sets `updated_at := now`.
-/

namespace Helpdesk

/-- Roles from `accounts/models.py` (`User.Role`). -/
inductive Role where
  | endUser
  | supportStaff
  | manager
  | admin
deriving DecidableEq, Repr

/-- Ticket states from `tickets/models.py` (`TicketStatus`). -/
inductive TicketStatus where
  | new
  | assigned
  | inProgress
  | pendingUser
  | resolved
  | closed
deriving DecidableEq, Repr

/-- Priorities from `tickets/models.py` (`TicketPriority`). -/
inductive Priority where
  | low
  | medium
  | high
  | urgent
deriving DecidableEq, Repr

/-- The parts of `accounts/models.py` `User` the lifecycle code reads. -/
structure User where
  id : String
  role : Role
  isActive : Bool
deriving DecidableEq, Repr

/-- `tickets/models.py` `Ticket`: the fields read or written by the
lifecycle views.  `created_at` is `auto_now_add`, `updated_at` is
`auto_now`. -/
structure Ticket where
  title : String
  description : String
  status : TicketStatus
  priority : Priority
  categoryId : String
  requester_id : String
  assignee_id : Option String
  team_id : Option String
  sla_response_deadline : Option Nat
  sla_resolution_deadline : Option Nat
  sla_breached : Bool
  satisfaction_rating : Option Nat
  satisfaction_comment : Option String
  resolved_at : Option Nat
  closed_at : Option Nat
  created_at : Nat
  updated_at : Nat
deriving DecidableEq, Repr

/-- `tickets/models.py` `TicketStatusHistory` (append-only). -/
structure TicketStatusHistory where
  from_status : TicketStatus
  to_status : TicketStatus
  comment : String
  changed_by_id : String
  changed_at : Nat
deriving DecidableEq, Repr

/-- `tickets/models.py` `TicketComment` (append-only). -/
structure TicketComment where
  content : String
  is_internal : Bool
  author_id : String
  created_at : Nat
deriving DecidableEq, Repr

/-- One ticket together with its history rows and comment rows. -/
structure TicketState where
  ticket : Ticket
  history : List TicketStatusHistory
  comments : List TicketComment
deriving DecidableEq, Repr

/-- Error kinds surfaced by the views (`error_response` /
`raise_exception=True` / `get_object_or_404`). -/
inductive ApiError where
  | forbidden
  | validation
  | notFound
deriving DecidableEq, Repr

/-- `tickets/views.py` `_is_staff`. -/
def isStaff (u : User) : Bool :=
  u.role == .admin || u.role == .manager || u.role == .supportStaff

/-- `accounts/permissions.py` `IsAdminOrManager.has_permission`
(for an authenticated user). -/
def isAdminOrManager (u : User) : Bool :=
  u.role == .admin || u.role == .manager

/-- `tickets/views.py` `_is_owner`: `str(ticket.requester_id) == str(user.id)`. -/
def isOwner (u : User) (t : Ticket) : Bool :=
  t.requester_id == u.id

/-- `accounts/notifications.py` staff-role test used by
`notify_ticket_created` (`role__in=[SUPPORT_STAFF, MANAGER, ADMIN]`). -/
def staffRole (r : Role) : Bool :=
  r == .supportStaff || r == .manager || r == .admin

/-- `UserModel.objects.get(id=...)` over a finite user table (ids unique). -/
def findUser (users : List User) (uid : String) : Option User :=
  users.find? (fun u => u.id == uid)

/-- `TicketListCreateView.perform_create` plus model-field defaults:
`status="new"`, requester snapshot from the actor, every other mutable
field at its `tickets/models.py` default.  No SLA deadline is computed
and `sla_breached` defaults to `False`. -/
def performCreate (user : User) (title description : String) (priority : Priority)
    (categoryId : String) (now : Nat) : Ticket :=
  { title := title
    description := description
    status := .new
    priority := priority
    categoryId := categoryId
    requester_id := user.id
    assignee_id := none
    team_id := none
    sla_response_deadline := none
    sla_resolution_deadline := none
    sla_breached := false
    satisfaction_rating := none
    satisfaction_comment := none
    resolved_at := none
    closed_at := none
    created_at := now
    updated_at := now }

/-- Lifecycle events that a request handler could hand to the
notification dispatcher. -/
inductive NotificationEvent where
  | ticketCreated
  | ticketAssigned
  | statusChanged
  | commentAdded
deriving DecidableEq, Repr

/-- `TicketListCreateView.create`: validates, calls `perform_create`,
serializes the result and returns.  The view body invokes no
notification function, so the list of dispatched events is empty. -/
def ticketCreateRequest (user : User) (title description : String)
    (priority : Priority) (categoryId : String) (now : Nat) :
    Ticket × List NotificationEvent :=
  (performCreate user title description priority categoryId now, [])

/-- Recipient computation of `accounts/notifications.py`
`notify_ticket_created`: active users with a staff role, excluding the
creator. -/
def notifyTicketCreatedRecipients (users : List User) (creatorId : String) :
    List User :=
  users.filter (fun u => staffRole u.role && u.isActive && u.id != creatorId)

/-- Recipient computation of `accounts/notifications.py`
`notify_new_comment`.  Internal comments: only the assignee (when set,
distinct from the commenter, and present in the user table).  Public
comments: requester then assignee, each skipped when equal to the
commenter or missing from the user table, with the duplicate-assignee
check of the source. -/
def notifyNewCommentRecipients (users : List User) (t : Ticket)
    (is_internal : Bool) (commenterId : String) : List User :=
  if is_internal then
    match t.assignee_id with
    | some aid =>
        if aid ≠ commenterId then
          match findUser users aid with
          | some a => [a]
          | none => []
        else []
    | none => []
  else
    let base : List User :=
      if t.requester_id ≠ commenterId then
        match findUser users t.requester_id with
        | some r => [r]
        | none => []
      else []
    match t.assignee_id with
    | some aid =>
        if aid ≠ commenterId then
          match findUser users aid with
          | some a => if a ∈ base then base else base ++ [a]
          | none => base
        else base
    | none => base

/-- Request body of `TicketUpdateSerializer`: every field optional;
`assignee_id`/`team_id` may be explicitly null (inner `Option`). -/
structure UpdateData where
  title : Option String
  description : Option String
  priority : Option Priority
  category_id : Option String
  assignee_id : Option (Option String)
  team_id : Option (Option String)
deriving DecidableEq, Repr

/-- The update body with no field present. -/
def emptyUpdate : UpdateData :=
  { title := none
    description := none
    priority := none
    category_id := none
    assignee_id := none
    team_id := none }

/-- `TicketUpdateView.put`.  Permission classes: `[IsAuthenticated]`
only — no role or ownership check.  `validate_category_id` rejects an
unknown category before any field is written; otherwise each present
field is copied onto the ticket and the ticket is saved. -/
def ticketUpdate (categories : List String) (actor : User) (t : Ticket)
    (d : UpdateData) (now : Nat) : Except ApiError Ticket :=
  if d.category_id.any (fun c => !categories.contains c) then
    .error .validation
  else
    .ok { t with
      title := d.title.getD t.title
      description := d.description.getD t.description
      priority := d.priority.getD t.priority
      categoryId := d.category_id.getD t.categoryId
      assignee_id := d.assignee_id.getD t.assignee_id
      team_id := d.team_id.getD t.team_id
      updated_at := now }

/-- `TicketAssignView.post`.  Permission classes: `[IsAdminOrManager]`.
Sets assignee and team (`team_id = data.get("team_id")`, so an absent
team clears the field); if the status is `new` it becomes `assigned`;
no history row is created; the ticket is saved. -/
def ticketAssign (actor : User) (st : TicketState) (assigneeId : String)
    (teamId : Option String) (now : Nat) : Except ApiError TicketState :=
  if !isAdminOrManager actor then
    .error .forbidden
  else
    .ok { st with ticket := { st.ticket with
      assignee_id := some assigneeId
      team_id := teamId
      status := if st.ticket.status == .new then .assigned else st.ticket.status
      updated_at := now } }

/-- `TicketStatusChangeView.post`.  Permission classes: `[IsStaffMember]`.
When the requested status differs from the current one: set it, append a
history row, set `resolved_at`/`closed_at` when entering those states
(unconditionally overwriting).  In either case the ticket is saved, so
`updated_at` is refreshed. -/
def ticketStatusChange (actor : User) (st : TicketState)
    (newStatus : TicketStatus) (comment : String) (now : Nat) :
    Except ApiError TicketState :=
  if !isStaff actor then
    .error .forbidden
  else
    if st.ticket.status == newStatus then
      .ok { st with ticket := { st.ticket with updated_at := now } }
    else
      .ok { st with
        ticket := { st.ticket with
          status := newStatus
          resolved_at := if newStatus == .resolved then some now
                         else st.ticket.resolved_at
          closed_at := if newStatus == .closed then some now
                       else st.ticket.closed_at
          updated_at := now }
        history := st.history ++
          [{ from_status := st.ticket.status
             to_status := newStatus
             comment := comment
             changed_by_id := actor.id
             changed_at := now }] }

/-- `TicketCommentCreateView.post`.  Guard: `_is_staff` or `_is_owner`,
otherwise 403.  The stored `is_internal` is taken from the request body
as-is (`data.get("is_internal", False)`); the ticket row itself is not
saved. -/
def addComment (actor : User) (st : TicketState) (content : String)
    (is_internal : Bool) (now : Nat) : Except ApiError TicketState :=
  if !isStaff actor && !isOwner actor st.ticket then
    .error .forbidden
  else
    let c : TicketComment :=
      { content := content
        is_internal := is_internal
        author_id := actor.id
        created_at := now }
    .ok { st with comments := st.comments ++ [c] }

/-- `TicketSatisfactionView.post`.  Guard: `_is_owner`, otherwise 403.
`TicketSatisfactionSerializer` validates `1 ≤ rating ≤ 5`.
`satisfaction_comment = data.get("comment")`, so an absent comment
clears the field; the ticket is saved. -/
def recordSatisfaction (actor : User) (st : TicketState) (rating : Nat)
    (comment : Option String) (now : Nat) : Except ApiError TicketState :=
  if !isOwner actor st.ticket then
    .error .forbidden
  else if rating < 1 ∨ 5 < rating then
    .error .validation
  else
    .ok { st with ticket := { st.ticket with
      satisfaction_rating := some rating
      satisfaction_comment := comment
      updated_at := now } }

/-- One core ticket-mutating request. -/
inductive Op where
  | update (categories : List String) (actor : User) (d : UpdateData) (now : Nat)
  | assign (actor : User) (assigneeId : String) (teamId : Option String) (now : Nat)
  | statusChange (actor : User) (newStatus : TicketStatus) (comment : String) (now : Nat)
  | comment (actor : User) (content : String) (is_internal : Bool) (now : Nat)
  | satisfaction (actor : User) (rating : Nat) (comment : Option String) (now : Nat)

/-- Apply one request to the ticket's state. -/
def applyOp (st : TicketState) : Op → Except ApiError TicketState
  | .update cats a d n =>
      (ticketUpdate cats a st.ticket d n).map (fun t => { st with ticket := t })
  | .assign a aid tid n => ticketAssign a st aid tid n
  | .statusChange a s c n => ticketStatusChange a st s c n
  | .comment a c i n => addComment a st c i n
  | .satisfaction a r c n => recordSatisfaction a st r c n

/-- Run a sequence of requests; a failed request leaves the persisted
state untouched (the views return an error response without saving). -/
def runOps (st : TicketState) : List Op → TicketState
  | [] => st
  | op :: rest =>
      match applyOp st op with
      | .ok st1 => runOps st1 rest
      | .error _ => runOps st rest

/-! ### Concrete fixtures used by witnesses and counterexamples -/

/-- A freshly created ticket (requester `"r"`, status `new`). -/
def baseTicket : Ticket :=
  { title := "t"
    description := ""
    status := .new
    priority := .medium
    categoryId := "c0"
    requester_id := "r"
    assignee_id := none
    team_id := none
    sla_response_deadline := none
    sla_resolution_deadline := none
    sla_breached := false
    satisfaction_rating := none
    satisfaction_comment := none
    resolved_at := none
    closed_at := none
    created_at := 0
    updated_at := 0 }

/-- `baseTicket` with empty history and comments. -/
def baseState : TicketState :=
  { ticket := baseTicket, history := [], comments := [] }

/-- A support-staff user. -/
def alice : User := { id := "alice", role := .supportStaff, isActive := true }

/-- A manager. -/
def mia : User := { id := "mia", role := .manager, isActive := true }

/-- An end user who is not the requester of `baseTicket`. -/
def eve : User := { id := "eve", role := .endUser, isActive := true }

/-- The end user who is the requester of `baseTicket`. -/
def reqUser : User := { id := "r", role := .endUser, isActive := true }

/-! ### Claims -/

/-- C1: the claim says a ticket created while an active `SLAPolicy`
exists for its priority gets `responseDeadline = createdAt +
policy.responseTime` and `resolutionDeadline = createdAt +
policy.resolutionTime`.  The creation path (`perform_create` plus the
model defaults) never consults `SLAConfig`: both deadlines are `none`
on every created ticket, whatever policies exist. -/
theorem c1_sla_deadlines_never_set (user : User) (title description : String)
    (priority : Priority) (categoryId : String) (now : Nat) :
    (performCreate user title description priority categoryId now).sla_response_deadline
      = none ∧
    (performCreate user title description priority categoryId now).sla_resolution_deadline
      = none :=
  ⟨rfl, rfl⟩

/-- C2 counterexample: `eve` is an authenticated end user who is neither
staff nor the requester of `baseTicket`, yet `TicketUpdateView.put`
accepts her request and overwrites the title — refuting "an
authenticated end user who is not the ticket's requester can never
mutate any field of that ticket". -/
theorem c2_update_not_guarded_counterexample :
    ticketUpdate [] eve baseTicket { emptyUpdate with title := some "hacked" } 5 =
      .ok { baseTicket with title := "hacked", updated_at := 5 } ∧
    isStaff eve = false ∧ isOwner eve baseTicket = false ∧
    baseTicket.title ≠ "hacked" :=
  ⟨rfl, rfl, rfl, by decide⟩

/-- C2 amended: each guarded operation enforces exactly its own
Visibility Guard predicate and fails with `Forbidden` (producing no
mutated state) on every actor violating it — assign requires
manager/admin, status change requires staff, comment requires staff or
the requester, satisfaction requires the requester; the generic update
endpoint, however, checks only authentication, so any authenticated
actor can mutate ticket fields through it. -/
theorem c2_guards_except_update (actor : User) (st : TicketState)
    (aid : String) (tid : Option String) (s : TicketStatus) (c content : String)
    (i : Bool) (r : Nat) (sc : Option String) (newTitle : String) (now : Nat) :
    (isAdminOrManager actor = false →
      ticketAssign actor st aid tid now = .error .forbidden) ∧
    (isStaff actor = false →
      ticketStatusChange actor st s c now = .error .forbidden) ∧
    (isStaff actor = false → isOwner actor st.ticket = false →
      addComment actor st content i now = .error .forbidden) ∧
    (isOwner actor st.ticket = false →
      recordSatisfaction actor st r sc now = .error .forbidden) ∧
    ticketUpdate [] actor st.ticket { emptyUpdate with title := some newTitle } now =
      .ok { st.ticket with title := newTitle, updated_at := now } := by
  refine ⟨?_, ?_, ?_, ?_, rfl⟩
  · intro hm
    simp [ticketAssign, hm]
  · intro hs
    simp [ticketStatusChange, hs]
  · intro hs ho
    simp [addComment, hs, ho]
  · intro ho
    simp [recordSatisfaction, ho]

/-- C2 witness: support staff `alice` is refused assign, the
owner-requester is refused a status change, non-owner end user `eve` is
refused a comment, staff non-owner `alice` is refused satisfaction —
while `eve` succeeds with an unguarded update. -/
theorem c2_guards_except_update_witness :
    ticketAssign alice baseState "a1" none 5 = .error .forbidden ∧
    ticketStatusChange reqUser baseState .closed "" 5 = .error .forbidden ∧
    addComment eve baseState "hi" true 5 = .error .forbidden ∧
    recordSatisfaction alice baseState 3 none 5 = .error .forbidden ∧
    ticketUpdate [] eve baseState.ticket { emptyUpdate with title := some "nt" } 5 =
      .ok { baseState.ticket with title := "nt", updated_at := 5 } :=
  ⟨(c2_guards_except_update alice baseState "a1" none .closed "" "hi" true
      3 none "nt" 5).1 (by decide),
   (c2_guards_except_update reqUser baseState "a1" none .closed "" "hi" true
      3 none "nt" 5).2.1 (by decide),
   (c2_guards_except_update eve baseState "a1" none .closed "" "hi" true
      3 none "nt" 5).2.2.1 (by decide) (by decide),
   (c2_guards_except_update alice baseState "a1" none .closed "" "hi" true
      3 none "nt" 5).2.2.2.1 (by decide),
   (c2_guards_except_update eve baseState "a1" none .closed "" "hi" true
      3 none "nt" 5).2.2.2.2⟩

/-- C3 counterexample: a same-status request (`new → new`) by staff
creates no history row but still saves the ticket, refreshing
`updatedAt` from 0 to 5 — refuting "does not mutate the ticket's
updatedAt". -/
theorem c3_noop_touches_updated_at_counterexample :
    ticketStatusChange alice baseState .new "" 5 =
      .ok { baseState with ticket := { baseTicket with updated_at := 5 } } ∧
    baseState.ticket.status = .new ∧ baseTicket.updated_at = 0 ∧ (0 : Nat) ≠ 5 :=
  ⟨rfl, rfl, rfl, by decide⟩

/-- C3 amended: a transition request naming the current status creates
no `TicketHistoryEntry` and changes no ticket field other than
`updatedAt`, which is refreshed to the request time. -/
theorem c3_noop_refreshes_only_updated_at (actor : User) (st : TicketState)
    (c : String) (now : Nat) (hstaff : isStaff actor = true) :
    ticketStatusChange actor st st.ticket.status c now =
      .ok { st with ticket := { st.ticket with updated_at := now } } := by
  simp [ticketStatusChange, hstaff]

/-- C3 witness: the amended statement instantiated with `alice` on
`baseState`. -/
theorem c3_noop_witness :
    ticketStatusChange alice baseState baseState.ticket.status "" 5 =
      .ok { baseState with ticket := { baseState.ticket with updated_at := 5 } } :=
  c3_noop_refreshes_only_updated_at alice baseState "" 5 (by decide)

/-- C4 counterexample: `mia` (manager) assigns `baseTicket` (status
`new`); the status becomes `assigned` but the history list is unchanged
(still empty) — refuting "exactly one new TicketHistoryEntry with
fromStatus=new and toStatus=assigned is appended". -/
theorem c4_assign_appends_no_history_counterexample :
    ticketAssign mia baseState "a1" none 5 =
      .ok { baseState with ticket := { baseTicket with
        assignee_id := some "a1", team_id := none,
        status := .assigned, updated_at := 5 } } ∧
    baseState.ticket.status = .new ∧ baseState.history = [] :=
  ⟨rfl, rfl, rfl⟩

/-- C4 amended: an authorized assign on a ticket in status `new` sets
the assignee/team snapshot and advances the status to `assigned`, but
appends no history entry at all. -/
theorem c4_assign_on_new_advances_without_history (actor : User)
    (st : TicketState) (aid : String) (tid : Option String) (now : Nat)
    (hperm : isAdminOrManager actor = true)
    (hnew : st.ticket.status = .new) :
    ticketAssign actor st aid tid now =
      .ok { st with ticket := { st.ticket with
        assignee_id := some aid, team_id := tid,
        status := .assigned, updated_at := now } } := by
  simp [ticketAssign, hperm, hnew]

/-- C4 witness: the amended statement instantiated with `mia` on
`baseState`. -/
theorem c4_assign_witness :
    ticketAssign mia baseState "a1" none 5 =
      .ok { baseState with ticket := { baseState.ticket with
        assignee_id := some "a1", team_id := none,
        status := .assigned, updated_at := 5 } } :=
  c4_assign_on_new_advances_without_history mia baseState "a1" none 5
    (by decide) (by decide)

/-- A support-staff user with id `"a"`. -/
def uA : User := { id := "a", role := .supportStaff, isActive := true }

/-- `baseTicket` assigned to `"a"` (assignee distinct from requester). -/
def assignedTicket : Ticket := { baseTicket with assignee_id := some "a" }

/-- `baseTicket` assigned to its own requester `"r"`. -/
def selfAssignedTicket : Ticket := { baseTicket with assignee_id := some "r" }

/-- C5 counterexample: a successful creation request dispatches no event
at all, even though active staff exist who would be recipients —
refuting "a TicketCreated event is dispatched" on every creation. -/
theorem c5_create_dispatches_no_event_counterexample :
    (ticketCreateRequest eve "t" "d" .low "c0" 0).2 = [] ∧
    notifyTicketCreatedRecipients [alice, mia] eve.id = [alice, mia] :=
  ⟨rfl, rfl⟩

/-- C5 amended: `notify_ticket_created` computes exactly the recipient
set the claim describes — active users with a staff role minus the
creator — but the ticket-creation request never invokes it, so its
dispatched event list is empty. -/
theorem c5_recipient_set_characterization (users : List User)
    (creatorId : String) (u : User) (user : User)
    (title description : String) (p : Priority) (cat : String) (now : Nat) :
    (ticketCreateRequest user title description p cat now).2 = [] ∧
    (u ∈ notifyTicketCreatedRecipients users creatorId ↔
      u ∈ users ∧ staffRole u.role = true ∧ u.isActive = true ∧
        u.id ≠ creatorId) := by
  refine ⟨rfl, ?_⟩
  simp [notifyTicketCreatedRecipients, List.mem_filter, Bool.and_eq_true,
    bne_iff_ne, and_assoc]

/-- C6 counterexample: the requester (`end_user` role, not staff)
posts a comment with `isInternal=true`; the request succeeds and the
stored comment has `is_internal = true` — refuting "in no execution is
a comment with isInternal=true persisted on behalf of a non-staff
author". -/
theorem c6_requester_stores_internal_counterexample :
    addComment reqUser baseState "note" true 7 =
      .ok { baseState with comments :=
        [{ content := "note", is_internal := true,
           author_id := "r", created_at := 7 }] } ∧
    isStaff reqUser = false :=
  ⟨rfl, rfl⟩

/-- C6 amended: an actor who is neither staff nor the ticket's
requester is rejected with `Forbidden`; any authorized commenter —
including the non-staff requester — has the `isInternal` flag persisted
exactly as submitted, with no staff-only restriction. -/
theorem c6_internal_flag_stored_as_submitted (actor : User)
    (st : TicketState) (content : String) (i : Bool) (now : Nat) :
    (isStaff actor = false → isOwner actor st.ticket = false →
      addComment actor st content i now = .error .forbidden) ∧
    (isOwner actor st.ticket = true →
      addComment actor st content i now =
        .ok { st with comments := st.comments ++
          [{ content := content, is_internal := i,
             author_id := actor.id, created_at := now }] }) := by
  constructor
  · intro h1 h2
    simp [addComment, h1, h2]
  · intro h
    simp [addComment, h]

/-- C6 witness: both parts of the amended statement at concrete inputs
(`eve` is rejected; the requester persists an internal comment). -/
theorem c6_internal_flag_witness :
    addComment eve baseState "x" true 3 = .error .forbidden ∧
    addComment reqUser baseState "x" true 3 =
      .ok { baseState with comments := baseState.comments ++
        [{ content := "x", is_internal := true,
           author_id := reqUser.id, created_at := 3 }] } :=
  ⟨(c6_internal_flag_stored_as_submitted eve baseState "x" true 3).1
      (by decide) (by decide),
   (c6_internal_flag_stored_as_submitted reqUser baseState "x" true 3).2
      (by decide)⟩

/-- C7 counterexample: on a ticket whose assignee id equals its
requester id, an internal comment by a third party produces a
notification whose recipient is the requester — refuting "including in
the case where the requester's id equals the ticket's assignee id". -/
theorem c7_internal_notifies_self_assigned_requester_counterexample :
    notifyNewCommentRecipients [reqUser] selfAssignedTicket true "c" =
      [reqUser] ∧
    reqUser.id = selfAssignedTicket.requester_id :=
  ⟨rfl, rfl⟩

/-- C7 amended: the internal-comment fan-out targets only the ticket's
current assignee (never the commenter); hence the requester receives a
notification exactly when the requester is the assignee. -/
theorem c7_internal_recipients_only_assignee (users : List User)
    (t : Ticket) (cid : String) (u : User)
    (h : u ∈ notifyNewCommentRecipients users t true cid) :
    t.assignee_id = some u.id ∧ u.id ≠ cid := by
  cases ha : t.assignee_id with
  | none => simp [notifyNewCommentRecipients, ha] at h
  | some aid =>
    by_cases hc : aid = cid
    · simp [notifyNewCommentRecipients, ha, hc] at h
    · cases hf : findUser users aid with
      | none => simp [notifyNewCommentRecipients, ha, hc, hf] at h
      | some a =>
        simp [notifyNewCommentRecipients, ha, hc, hf] at h
        subst h
        have hfind : users.find? (fun v => v.id == aid) = some u := hf
        have hid : u.id = aid := by
          have := List.find?_some hfind
          simpa using this
        rw [hid]
        exact ⟨rfl, hc⟩

/-- C7 witness: the amended statement at a concrete internal comment on
`assignedTicket`. -/
theorem c7_internal_recipients_witness :
    assignedTicket.assignee_id = some uA.id ∧ uA.id ≠ "c" :=
  c7_internal_recipients_only_assignee [uA] assignedTicket "c" uA (by decide)

/-! ### Preservation of the breach flag -/

/-- `TicketUpdateView.put` never writes `sla_breached`
(`TicketUpdateSerializer` has no such field). -/
theorem ticketUpdate_preserves_breached (cats : List String) (a : User)
    (t : Ticket) (d : UpdateData) (n : Nat) (t' : Ticket)
    (h : ticketUpdate cats a t d n = .ok t') :
    t'.sla_breached = t.sla_breached := by
  unfold ticketUpdate at h
  split at h
  · simp at h
  · injection h with h
    subst h
    rfl

/-- `TicketAssignView.post` never writes `sla_breached`. -/
theorem ticketAssign_preserves_breached (a : User) (st : TicketState)
    (aid : String) (tid : Option String) (n : Nat) (st' : TicketState)
    (h : ticketAssign a st aid tid n = .ok st') :
    st'.ticket.sla_breached = st.ticket.sla_breached := by
  unfold ticketAssign at h
  split at h
  · simp at h
  · injection h with h
    subst h
    rfl

/-- `TicketStatusChangeView.post` never writes `sla_breached`. -/
theorem ticketStatusChange_preserves_breached (a : User) (st : TicketState)
    (s : TicketStatus) (c : String) (n : Nat) (st' : TicketState)
    (h : ticketStatusChange a st s c n = .ok st') :
    st'.ticket.sla_breached = st.ticket.sla_breached := by
  unfold ticketStatusChange at h
  split at h
  · simp at h
  · split at h <;> (injection h with h; subst h; rfl)

/-- `TicketCommentCreateView.post` does not save the ticket row. -/
theorem addComment_preserves_breached (a : User) (st : TicketState)
    (c : String) (i : Bool) (n : Nat) (st' : TicketState)
    (h : addComment a st c i n = .ok st') :
    st'.ticket.sla_breached = st.ticket.sla_breached := by
  unfold addComment at h
  split at h
  · simp at h
  · injection h with h
    subst h
    rfl

/-- `TicketSatisfactionView.post` never writes `sla_breached`. -/
theorem recordSatisfaction_preserves_breached (a : User) (st : TicketState)
    (r : Nat) (c : Option String) (n : Nat) (st' : TicketState)
    (h : recordSatisfaction a st r c n = .ok st') :
    st'.ticket.sla_breached = st.ticket.sla_breached := by
  unfold recordSatisfaction at h
  split at h
  · simp at h
  · split at h
    · simp at h
    · injection h with h
      subst h
      rfl

/-- No accepted core request changes the breach flag. -/
theorem applyOp_preserves_breached (st : TicketState) (op : Op)
    (st' : TicketState) (h : applyOp st op = .ok st') :
    st'.ticket.sla_breached = st.ticket.sla_breached := by
  cases op with
  | update cats a d n =>
    simp only [applyOp] at h
    cases hu : ticketUpdate cats a st.ticket d n with
    | error e => rw [hu] at h; simp [Except.map] at h
    | ok t2 =>
      rw [hu] at h
      simp only [Except.map] at h
      injection h with h
      subst h
      exact ticketUpdate_preserves_breached cats a st.ticket d n t2 hu
  | assign a aid tid n =>
    exact ticketAssign_preserves_breached a st aid tid n st' h
  | statusChange a s c n =>
    exact ticketStatusChange_preserves_breached a st s c n st' h
  | comment a c i n =>
    exact addComment_preserves_breached a st c i n st' h
  | satisfaction a r c n =>
    exact recordSatisfaction_preserves_breached a st r c n st' h

/-- Over any request sequence, the breach flag at the end equals the
breach flag at the start: nothing in the core ever touches it. -/
theorem runOps_preserves_breached (ops : List Op) (st : TicketState) :
    (runOps st ops).ticket.sla_breached = st.ticket.sla_breached := by
  induction ops generalizing st with
  | nil => rfl
  | cons op rest ih =>
    simp only [runOps]
    cases hop : applyOp st op with
    | ok st1 =>
      rw [ih st1, applyOp_preserves_breached st op st1 hop]
    | error e =>
      exact ih st

/-- C8: once the ticket's `sla_breached` flag is true, no sequence of
core operations (update, assign, status change, comment, satisfaction)
ever makes a later read observe it false. -/
theorem c8_breached_monotonic (st : TicketState) (ops : List Op)
    (h : st.ticket.sla_breached = true) :
    (runOps st ops).ticket.sla_breached = true := by
  rw [runOps_preserves_breached]
  exact h

/-- `baseState` with the breach flag already raised. -/
def breachedState : TicketState :=
  { baseState with ticket := { baseTicket with sla_breached := true } }

/-- C8 witness: a breached ticket stays breached across a concrete
assign / status-change / satisfaction sequence. -/
theorem c8_breached_monotonic_witness :
    (runOps breachedState
      [ .assign mia "a1" none 1,
        .statusChange alice .resolved "done" 2,
        .satisfaction reqUser 4 none 3 ]).ticket.sla_breached = true :=
  c8_breached_monotonic breachedState
    [ .assign mia "a1" none 1,
      .statusChange alice .resolved "done" 2,
      .satisfaction reqUser 4 none 3 ] rfl

/-- `baseTicket` already resolved at time 1. -/
def resolvedState : TicketState :=
  { baseState with ticket :=
    { baseTicket with status := .resolved, resolved_at := some 1 } }

/-- `baseTicket` resolved at 1 and closed at 2. -/
def closedState : TicketState :=
  { baseState with ticket := { baseTicket with
      status := .closed, resolved_at := some 1, closed_at := some 2 } }

/-- C9 counterexample: a ticket first resolved at time 1 is closed at
time 2 and resolved again at time 3; `resolvedAt` afterwards reads
`some 3`, not the first resolution's `some 1` — refuting "resolvedAt
keeps the timestamp of the first resolution". -/
theorem c9_resolved_at_overwritten_counterexample :
    (runOps resolvedState
      [ .statusChange alice .closed "" 2,
        .statusChange alice .resolved "" 3 ]).ticket.resolved_at = some 3 ∧
    resolvedState.ticket.resolved_at = some 1 :=
  ⟨rfl, rfl⟩

/-- C9 amended: every accepted transition into `resolved` from a
different status sets `resolvedAt` to the transition time,
unconditionally overwriting any earlier resolution timestamp (only a
same-status `resolved → resolved` request leaves it unchanged). -/
theorem c9_transition_to_resolved_overwrites (actor : User)
    (st : TicketState) (c : String) (now : Nat)
    (hstaff : isStaff actor = true)
    (hne : st.ticket.status ≠ .resolved) :
    ticketStatusChange actor st .resolved c now =
      .ok { st with
        ticket := { st.ticket with
          status := .resolved, resolved_at := some now, updated_at := now }
        history := st.history ++
          [{ from_status := st.ticket.status, to_status := .resolved,
             comment := c, changed_by_id := actor.id, changed_at := now }] } := by
  have hb : (st.ticket.status == TicketStatus.resolved) = false := by
    simpa using hne
  simp [ticketStatusChange, hstaff, hb]

/-- C9 witness: the amended statement on `closedState` at time 3,
overwriting the original `resolvedAt = some 1`. -/
theorem c9_transition_to_resolved_witness :
    ticketStatusChange alice closedState .resolved "" 3 =
      .ok { closedState with
        ticket := { closedState.ticket with
          status := .resolved, resolved_at := some 3, updated_at := 3 }
        history := closedState.history ++
          [{ from_status := closedState.ticket.status,
             to_status := .resolved, comment := "",
             changed_by_id := alice.id, changed_at := 3 }] } :=
  c9_transition_to_resolved_overwrites alice closedState "" 3
    (by decide) (by decide)

/-- C10: two successive satisfaction submissions by the requester each
succeed; the final state carries the single rating field set to the
second value, and equals the state produced by submitting only the
second rating (last-write-wins, no second record). -/
theorem c10_satisfaction_last_write_wins (actor : User) (st : TicketState)
    (r1 r2 : Nat) (c1 c2 : Option String) (n1 n2 : Nat)
    (hown : isOwner actor st.ticket = true)
    (h1l : 1 ≤ r1) (h1u : r1 ≤ 5) (h2l : 1 ≤ r2) (h2u : r2 ≤ 5) :
    recordSatisfaction actor st r1 c1 n1 =
      .ok { st with ticket := { st.ticket with
        satisfaction_rating := some r1, satisfaction_comment := c1,
        updated_at := n1 } } ∧
    recordSatisfaction actor
      { st with ticket := { st.ticket with
        satisfaction_rating := some r1, satisfaction_comment := c1,
        updated_at := n1 } } r2 c2 n2 =
      .ok { st with ticket := { st.ticket with
        satisfaction_rating := some r2, satisfaction_comment := c2,
        updated_at := n2 } } ∧
    recordSatisfaction actor st r2 c2 n2 =
      .ok { st with ticket := { st.ticket with
        satisfaction_rating := some r2, satisfaction_comment := c2,
        updated_at := n2 } } := by
  have hreq : (st.ticket.requester_id == actor.id) = true := by
    simpa [isOwner] using hown
  refine ⟨?_, ?_, ?_⟩ <;>
    (simp [recordSatisfaction, isOwner, hreq]; omega)

/-- C10 witness: the requester rates `baseTicket` 3 then 5; exactly one
rating (5) remains, identical to a single rating of 5. -/
theorem c10_satisfaction_witness :
    recordSatisfaction reqUser baseState 3 none 1 =
      .ok { baseState with ticket := { baseState.ticket with
        satisfaction_rating := some 3, satisfaction_comment := none,
        updated_at := 1 } } ∧
    recordSatisfaction reqUser
      { baseState with ticket := { baseState.ticket with
        satisfaction_rating := some 3, satisfaction_comment := none,
        updated_at := 1 } } 5 (some "good") 2 =
      .ok { baseState with ticket := { baseState.ticket with
        satisfaction_rating := some 5, satisfaction_comment := some "good",
        updated_at := 2 } } ∧
    recordSatisfaction reqUser baseState 5 (some "good") 2 =
      .ok { baseState with ticket := { baseState.ticket with
        satisfaction_rating := some 5, satisfaction_comment := some "good",
        updated_at := 2 } } :=
  c10_satisfaction_last_write_wins reqUser baseState 3 5 none (some "good") 1 2
    (by decide) (by decide) (by decide) (by decide) (by decide)

end Helpdesk
